import Mathlib

/-!
Shallow embedding of the tiered credential lifecycle manager (`ZyloClient`,
src/src/components/puzzle-solver.tsx).  The manager's mutable fields become a
`ZyloState` record; every public operation and both timer callbacks become pure
state transformers.  Network calls, the identity-provider binding and the
wall clock are the only effects, and each is injected as an explicit argument
(an oracle), so the functions are total: a TS `throw` that escapes an
operation is modelled by `Option`/`Except`, while recovered failures are
ordinary branches.  JS timers are modelled by an explicit table of pending
timer entries (`pending`) plus the two stale-capable handle fields the class
keeps; `setTimeout` appends a fresh entry, `clearTimeout` removes by id, and a
callback fires by removing its entry before running its body.
-/

namespace Zylo

/-- TokenType from the source: the three trust tiers. -/
inductive TokenType where
  | FALLBACK_ANON
  | SCOPED_ANON
  | USER_SCOPED
deriving DecidableEq, Repr

/-- Kind tag distinguishing the two timers the manager owns. -/
inductive TimerKind where
  | REEXCHANGE
  | UPGRADE
deriving DecidableEq, Repr

/-- One armed `setTimeout` entry: its handle id, which of the two callbacks it
runs, and the delay in milliseconds it was armed with. -/
structure Timer where
  id : Nat
  kind : TimerKind
  delay : Int
deriving DecidableEq, Repr

/-- ZyloConfig from the source (types module): immutable construction data. -/
structure ZyloConfig where
  supabaseUrl : String
  supabaseAnonKey : String
  controlPlaneUrl : String
  tenantId : String
  projectId : String
  signedAppContext : Option String
deriving DecidableEq, Repr

/-- The three localStorage slots (TOKEN_KEY, TOKEN_EXPIRY_KEY, TOKEN_TYPE_KEY).
Each slot is independently present or absent, as in localStorage. -/
structure Storage where
  token : Option String
  expiry : Option Int
  type : Option TokenType
deriving DecidableEq, Repr

/-- Mutable state of a `ZyloClient` instance, together with the timer table of
its environment.  `sessionToken` is the access token last pushed into the
Supabase session (via `setSession` or `signInWithPassword`); `none` means no
session is bound. -/
structure ZyloState where
  config : ZyloConfig
  currentTokenType : TokenType
  tokenExpiry : Option Int
  storage : Storage
  sessionToken : Option String
  reexchangeTimer : Option Nat
  upgradeTimer : Option Nat
  pending : List Timer
  nextTimerId : Nat
deriving DecidableEq, Repr

/-- Constructor: fields start as in `new ZyloClient(config)` (tier
FALLBACK_ANON, no expiry, no timers); storage is taken as found, and the
initial state of a fresh environment has it empty. -/
def initState (cfg : ZyloConfig) : ZyloState where
  config := cfg
  currentTokenType := TokenType.FALLBACK_ANON
  tokenExpiry := none
  storage := ⟨none, none, none⟩
  sessionToken := none
  reexchangeTimer := none
  upgradeTimer := none
  pending := []
  nextTimerId := 0

/-- Outcome of one Control-Plane token exchange POST: a 2xx JSON body
`{access_token, expires_in}`, or any failure (network error, timeout or
non-2xx — all reach the caller as a thrown error there). -/
inductive ExchangeResult where
  | ok (access_token : String) (expires_in : Int)
  | err
deriving DecidableEq, Repr

/-- Result record of `loadStoredToken` in the source. -/
structure StoredToken where
  token : String
  expiry : Int
  type : TokenType
deriving DecidableEq, Repr

/-- loadStoredToken: reads the three slots; an absent slot or a JS-falsy token
string (the empty string) yields `null`.  The expiry slot is stored as the
decimal string of an integer, so its read-back is never falsy and
`parseInt` restores the integer. -/
def loadStoredToken (s : ZyloState) : Option StoredToken :=
  match s.storage.token, s.storage.expiry, s.storage.type with
  | some tok, some exp, some ty =>
      if tok = "" then none else some ⟨tok, exp, ty⟩
  | _, _, _ => none

/-- isTokenExpired: `expiry ?? this.tokenExpiry`; a JS-falsy result (null or 0)
is "never expires"; otherwise expired when `now ≥ expiryTime`. -/
def isTokenExpired (s : ZyloState) (expiry : Option Int) (now : Int) : Bool :=
  match (match expiry with | some e => some e | none => s.tokenExpiry) with
  | none => false
  | some t => if t = 0 then false else decide (now ≥ t)

/-- setToken: push the token into the Supabase session, then either persist
the complete triple (when `expiresIn` is non-null) or clear all three slots.
The persisted type tag reads the CURRENT value of `currentTokenType`, exactly
as the source does. -/
def setToken (s : ZyloState) (token : String) (expiresIn : Option Int) (now : Int) : ZyloState :=
  let s1 := { s with sessionToken := some token }
  match expiresIn with
  | some e =>
      let expiryTime := now + e * 1000
      { s1 with tokenExpiry := some expiryTime,
                storage := ⟨some token, some expiryTime, some s1.currentTokenType⟩ }
  | none =>
      { s1 with tokenExpiry := none, storage := ⟨none, none, none⟩ }

/-- clearReexchangeTimer: `clearTimeout` on the held handle (a no-op on an
already-fired handle, since firing removed its entry), then null the field. -/
def clearReexchangeTimer (s : ZyloState) : ZyloState :=
  match s.reexchangeTimer with
  | some i => { s with pending := s.pending.filter (fun t => t.id != i), reexchangeTimer := none }
  | none => s

/-- clearUpgradeTimer: same for the upgrade handle. -/
def clearUpgradeTimer (s : ZyloState) : ZyloState :=
  match s.upgradeTimer with
  | some i => { s with pending := s.pending.filter (fun t => t.id != i), upgradeTimer := none }
  | none => s

/-- scheduleReexchange: clear the old renewal timer; return early when
`tokenExpiry` is JS-falsy (null or 0); otherwise arm a renewal timer with
delay `max 0 (expiry - 2*60*1000 - now)`. -/
def scheduleReexchange (s : ZyloState) (now : Int) : ZyloState :=
  let s1 := clearReexchangeTimer s
  match s1.tokenExpiry with
  | none => s1
  | some e =>
      if e = 0 then s1
      else
        { s1 with
            pending := s1.pending ++ [⟨s1.nextTimerId, TimerKind.REEXCHANGE, max 0 (e - 2 * 60 * 1000 - now)⟩],
            reexchangeTimer := some s1.nextTimerId,
            nextTimerId := s1.nextTimerId + 1 }

/-- scheduleUpgradeAttempt: clear the old upgrade timer, then arm a fresh one
with a fixed 5-minute delay. -/
def scheduleUpgradeAttempt (s : ZyloState) : ZyloState :=
  let s1 := clearUpgradeTimer s
  { s1 with
      pending := s1.pending ++ [⟨s1.nextTimerId, TimerKind.UPGRADE, 5 * 60 * 1000⟩],
      upgradeTimer := some s1.nextTimerId,
      nextTimerId := s1.nextTimerId + 1 }

/-- Body of the catch arm shared verbatim by `boot` and the renewal callback:
bind the static fallback credential (clearing storage via the null expiry),
set tier FALLBACK_ANON, arm the upgrade-retry timer. -/
def fallbackDemote (s : ZyloState) (now : Int) : ZyloState :=
  let s1 := setToken s s.config.supabaseAnonKey none now
  scheduleUpgradeAttempt { s1 with currentTokenType := TokenType.FALLBACK_ANON }

/-- Exchange branch of `boot` (runs when no valid stored token was found):
try the scoped-anon exchange; on success persist/bind/arm renewal with tier
SCOPED_ANON (assigned AFTER `setToken`, as in the source); on failure demote.
The `ensureTenantUsersTableExists` fire-and-forget call has its errors
swallowed and touches no manager state, so it has no footprint here. -/
def bootExchange (s : ZyloState) (now : Int) (anonRes : ExchangeResult) : ZyloState :=
  match anonRes with
  | ExchangeResult.ok tok expIn =>
      let s1 := setToken s tok (some expIn) now
      scheduleReexchange { s1 with currentTokenType := TokenType.SCOPED_ANON } now
  | ExchangeResult.err => fallbackDemote s now

/-- boot: restore a stored, non-expired token verbatim (binding it with a null
expires-in, then overwriting tier and expiry from the record) and arm renewal;
otherwise run the exchange branch.  Every fallible sub-step is recovered
inside, so the embedding is a total function: `boot` never raises. -/
def boot (s : ZyloState) (now : Int) (anonRes : ExchangeResult) : ZyloState :=
  match loadStoredToken s with
  | some stored =>
      if !(isTokenExpired s (some stored.expiry) now) then
        let s1 := setToken s stored.token none now
        scheduleReexchange { s1 with currentTokenType := stored.type, tokenExpiry := some stored.expiry } now
      else
        bootExchange s now anonRes
  | none => bootExchange s now anonRes

/-- Branch condition of boot's restore path, as one decidable predicate. -/
def hasValidStoredToken (s : ZyloState) (now : Int) : Bool :=
  match loadStoredToken s with
  | some stored => !(isTokenExpired s (some stored.expiry) now)
  | none => false

/-- login: primary authentication (`signInWithPassword`) is the oracle
`auth` — `some userToken` when the identity provider authenticates and hands
back a bearer token, `none` when it fails or returns no token, in which case
the error propagates (result `none`).  On auth success the user session is
bound; then the tenant-user exchange either promotes to USER_SCOPED
(persist via `setToken` BEFORE the tier assignment, as in the source) or its
failure is swallowed, keeping the previous token state. -/
def login (s : ZyloState) (now : Int) (auth : Option String) (exch : ExchangeResult) :
    Option ZyloState :=
  match auth with
  | none => none
  | some userToken =>
      let s0 := { s with sessionToken := some userToken }
      match exch with
      | ExchangeResult.ok tok expIn =>
          let s1 := setToken s0 tok (some expIn) now
          some (scheduleReexchange { s1 with currentTokenType := TokenType.USER_SCOPED } now)
      | ExchangeResult.err => some s0

/-- Outcome of the primary Control-Plane signup POST. -/
inductive HttpOutcome where
  | ok
  | httpStatus (code : Nat) (errorBody : Option String)
  | abortTimeout
  | networkErr
deriving DecidableEq, Repr

/-- Classification the signup control flow assigns to the primary POST. -/
inductive PrimaryClass where
  | proceedLogin
  | fallthroughSupabase
  | fatal (msg : String)
deriving DecidableEq, Repr

/-- Boolean test that `needle` is a prefix of `hay` (character lists). -/
def prefB : List Char → List Char → Bool
  | [], _ => true
  | _ :: _, [] => false
  | a :: as, b :: bs => a == b && prefB as bs

/-- Boolean substring test on character lists. -/
def subB : List Char → List Char → Bool
  | n, [] => n.isEmpty
  | n, c :: rest => prefB n (c :: rest) || subB n rest

/-- JS `message.includes(needle)` on strings. -/
def containsSub (needle hay : String) : Bool :=
  subB needle.data hay.data

/-- Message built for a non-2xx, non-404 primary signup response:
`errorData.error || ` with the template string as the JS-falsy fallback
(`errorBody = none` models a body whose parse failed with empty statusText or
one lacking the `error` field). -/
def signupErrMsg (code : Nat) (errorBody : Option String) : String :=
  match errorBody with
  | some e => if e = "" then "Signup failed: " ++ toString code else e
  | none => "Signup failed: " ++ toString code

/-- Classification of the primary signup POST, tracing the source exactly:
2xx proceeds to `login`; 404 falls through; any other status throws the
server-derived message, which the inner catch re-throws ONLY when it contains
the substring `Signup failed` — otherwise it falls through like a network
error; an AbortError (timeout) or other network rejection falls through. -/
def classifyPrimarySignup (r : HttpOutcome) : PrimaryClass :=
  match r with
  | HttpOutcome.ok => PrimaryClass.proceedLogin
  | HttpOutcome.httpStatus code errorBody =>
      if code = 404 then PrimaryClass.fallthroughSupabase
      else
        let msg := signupErrMsg code errorBody
        if containsSub "Signup failed" msg then PrimaryClass.fatal msg
        else PrimaryClass.fallthroughSupabase
  | HttpOutcome.abortTimeout => PrimaryClass.fallthroughSupabase
  | HttpOutcome.networkErr => PrimaryClass.fallthroughSupabase

/-- Outer-catch mapping of a thrown signup error message onto the
user-presentable message that `signUp` ultimately throws. -/
def mapSignupError (msg : String) : String :=
  if containsSub "User already registered" msg then
    "An account with this username already exists. Please sign in instead."
  else if containsSub "Invalid email" msg then
    "Invalid username. Please use only letters and numbers."
  else if containsSub "Password" msg then
    "Password does not meet requirements. Please use a stronger password."
  else if msg = "" then "Account creation failed. Please try again."
  else msg

/-- JS `session.expires_in || null`: zero collapses to null. -/
def jsOrNull (n : Option Int) : Option Int :=
  match n with
  | some 0 => none
  | x => x

/-- Outcome of the fallback direct-Supabase `auth.signUp` call. -/
inductive SignUpFallback where
  | err (msg : String)
  | okSession (token : String) (expiresIn : Option Int)
  | okNoSession
  | okNoUser
deriving DecidableEq, Repr

/-- Shared sub-step `await this.login(email, password)` as run inside
signUp's outer try: a login throw is caught there and re-thrown after
`mapSignupError`; state changes only on normal return. -/
def loginOrError (s : ZyloState) (now : Int) (auth : Option String)
    (authErrMsg : String) (exch : ExchangeResult) : Except String ZyloState :=
  match login s now auth exch with
  | some s' => Except.ok s'
  | none => Except.error (mapSignupError authErrMsg)

/-- signUp: primary Control-Plane endpoint first, classified as in
`classifyPrimarySignup`; 2xx proceeds to `login`; fallthrough runs the direct
Supabase signup, binding an immediate session as USER_SCOPED (again
`setToken` before the tier assignment) or else calling `login`; every message
thrown out of the outer try is translated by `mapSignupError`. -/
def signUp (s : ZyloState) (now : Int) (primary : HttpOutcome) (fb : SignUpFallback)
    (auth : Option String) (authErrMsg : String) (exch : ExchangeResult) :
    Except String ZyloState :=
  match classifyPrimarySignup primary with
  | PrimaryClass.proceedLogin => loginOrError s now auth authErrMsg exch
  | PrimaryClass.fatal msg => Except.error (mapSignupError msg)
  | PrimaryClass.fallthroughSupabase =>
      match fb with
      | SignUpFallback.err m => Except.error (mapSignupError m)
      | SignUpFallback.okNoUser =>
          Except.error (mapSignupError "Signup succeeded but no user data returned")
      | SignUpFallback.okSession tok expIn =>
          let s1 := setToken s tok (jsOrNull expIn) now
          Except.ok (scheduleReexchange { s1 with currentTokenType := TokenType.USER_SCOPED } now)
      | SignUpFallback.okNoSession => loginOrError s now auth authErrMsg exch

/-- logout: sign out of Supabase (session dropped), clear both timers, then
re-run `boot` from scratch. -/
def logout (s : ZyloState) (now : Int) (anonRes : ExchangeResult) : ZyloState :=
  boot (clearUpgradeTimer (clearReexchangeTimer { s with sessionToken := none })) now anonRes

/-- cleanup: clear both timers. -/
def cleanup (s : ZyloState) : ZyloState :=
  clearUpgradeTimer (clearReexchangeTimer s)

/-- Firing of the armed timer with handle `i`: the environment removes the
entry before running the callback (the handle field keeps its stale id, as a
fired JS handle does). -/
def fireTimerEntry (s : ZyloState) (i : Nat) : ZyloState :=
  { s with pending := s.pending.filter (fun t => t.id != i) }

/-- Body of the renewal (re-exchange) timer callback.  `userSession` is the
live Supabase session token, if any; `tenantExch`/`anonExch` are the two
possible exchanges; `bootRes` feeds the nested `boot` call taken when a
USER_SCOPED session has expired elsewhere.  Any exchange failure lands in the
catch arm, which demotes to the fallback tier and arms upgrade-retry. -/
def reexchangeCallback (s : ZyloState) (now : Int) (userSession : Option String)
    (tenantExch anonExch bootRes : ExchangeResult) : ZyloState :=
  match s.currentTokenType with
  | TokenType.USER_SCOPED =>
      match userSession with
      | some _ =>
          match tenantExch with
          | ExchangeResult.ok tok expIn =>
              scheduleReexchange (setToken s tok (some expIn) now) now
          | ExchangeResult.err => fallbackDemote s now
      | none => scheduleReexchange (boot s now bootRes) now
  | TokenType.SCOPED_ANON =>
      match anonExch with
      | ExchangeResult.ok tok expIn =>
          scheduleReexchange (setToken s tok (some expIn) now) now
      | ExchangeResult.err => fallbackDemote s now
  | TokenType.FALLBACK_ANON => scheduleReexchange s now

/-- Body of the upgrade-retry timer callback: attempt the scoped-anon
exchange with NO guard on the current tier; success applies SCOPED_ANON and
arms renewal, failure reschedules another attempt. -/
def upgradeCallback (s : ZyloState) (now : Int) (anonExch : ExchangeResult) : ZyloState :=
  match anonExch with
  | ExchangeResult.ok tok expIn =>
      let s1 := setToken s tok (some expIn) now
      scheduleReexchange { s1 with currentTokenType := TokenType.SCOPED_ANON } now
  | ExchangeResult.err => scheduleUpgradeAttempt s

/-- One observable transition of a manager instance: a public-API call that
returns (normally or by throw that leaves state intact), or the firing of an
armed timer.  Oracles range over all environments. -/
inductive Step : ZyloState → ZyloState → Prop where
  | bootStep (s : ZyloState) (now : Int) (r : ExchangeResult) : Step s (boot s now r)
  | loginStep (s s' : ZyloState) (now : Int) (auth : Option String) (exch : ExchangeResult) :
      login s now auth exch = some s' → Step s s'
  | signUpStep (s s' : ZyloState) (now : Int) (primary : HttpOutcome) (fb : SignUpFallback)
      (auth : Option String) (msg : String) (exch : ExchangeResult) :
      signUp s now primary fb auth msg exch = Except.ok s' → Step s s'
  | logoutStep (s : ZyloState) (now : Int) (r : ExchangeResult) : Step s (logout s now r)
  | cleanupStep (s : ZyloState) : Step s (cleanup s)
  | fireReexStep (s : ZyloState) (now : Int) (t : Timer) (us : Option String)
      (te ae br : ExchangeResult) :
      t ∈ s.pending → t.kind = TimerKind.REEXCHANGE →
      Step s (reexchangeCallback (fireTimerEntry s t.id) now us te ae br)
  | fireUpgradeStep (s : ZyloState) (now : Int) (t : Timer) (ae : ExchangeResult) :
      t ∈ s.pending → t.kind = TimerKind.UPGRADE →
      Step s (upgradeCallback (fireTimerEntry s t.id) now ae)

/-- States a manager constructed with `cfg` can reach. -/
inductive Reachable (cfg : ZyloConfig) : ZyloState → Prop where
  | init : Reachable cfg (initState cfg)
  | step {s s' : ZyloState} : Reachable cfg s → Step s s' → Reachable cfg s'

/-- Concrete configuration used by witnesses and evaluation theorems. -/
def cfg0 : ZyloConfig :=
  { supabaseUrl := "https://sb.example"
    supabaseAnonKey := "ENV_ANON_KEY"
    controlPlaneUrl := "https://cp.example"
    tenantId := "tenant-1"
    projectId := "project-1"
    signedAppContext := none }

/-- A state used as a witness input for the restore path: the three slots hold
a complete, far-future record. -/
def storedState : ZyloState :=
  { initState cfg0 with storage := ⟨some "stored-tok", some 1000000, some TokenType.SCOPED_ANON⟩ }

/-- Auxiliary invariant carried through every reachable state: each armed
renewal entry is the one the `reexchangeTimer` handle refers to, each armed
upgrade entry is the one the `upgradeTimer` handle refers to, every armed id
is below the id counter, and armed ids are distinct. -/
structure TimerInv (s : ZyloState) : Prop where
  reexMem : ∀ t ∈ s.pending, t.kind = TimerKind.REEXCHANGE → s.reexchangeTimer = some t.id
  upgMem : ∀ t ∈ s.pending, t.kind = TimerKind.UPGRADE → s.upgradeTimer = some t.id
  fresh : ∀ t ∈ s.pending, t.id < s.nextTimerId
  nodup : (s.pending.map (fun t => t.id)).Nodup

lemma clearReexchangeTimer_fields (s : ZyloState) :
    (clearReexchangeTimer s).config = s.config ∧
    (clearReexchangeTimer s).currentTokenType = s.currentTokenType ∧
    (clearReexchangeTimer s).tokenExpiry = s.tokenExpiry ∧
    (clearReexchangeTimer s).storage = s.storage ∧
    (clearReexchangeTimer s).sessionToken = s.sessionToken ∧
    (clearReexchangeTimer s).upgradeTimer = s.upgradeTimer ∧
    (clearReexchangeTimer s).nextTimerId = s.nextTimerId := by
  rcases hr : s.reexchangeTimer with _ | i <;> simp [clearReexchangeTimer, hr]

lemma clearUpgradeTimer_fields (s : ZyloState) :
    (clearUpgradeTimer s).config = s.config ∧
    (clearUpgradeTimer s).currentTokenType = s.currentTokenType ∧
    (clearUpgradeTimer s).tokenExpiry = s.tokenExpiry ∧
    (clearUpgradeTimer s).storage = s.storage ∧
    (clearUpgradeTimer s).sessionToken = s.sessionToken ∧
    (clearUpgradeTimer s).reexchangeTimer = s.reexchangeTimer ∧
    (clearUpgradeTimer s).nextTimerId = s.nextTimerId := by
  rcases hr : s.upgradeTimer with _ | i <;> simp [clearUpgradeTimer, hr]

lemma clearReexchangeTimer_none (s : ZyloState) :
    (clearReexchangeTimer s).reexchangeTimer = none := by
  rcases hr : s.reexchangeTimer with _ | i <;> simp [clearReexchangeTimer, hr]

lemma clearUpgradeTimer_none (s : ZyloState) :
    (clearUpgradeTimer s).upgradeTimer = none := by
  rcases hr : s.upgradeTimer with _ | i <;> simp [clearUpgradeTimer, hr]

lemma scheduleReexchange_fields (s : ZyloState) (now : Int) :
    (scheduleReexchange s now).config = s.config ∧
    (scheduleReexchange s now).currentTokenType = s.currentTokenType ∧
    (scheduleReexchange s now).tokenExpiry = s.tokenExpiry ∧
    (scheduleReexchange s now).storage = s.storage ∧
    (scheduleReexchange s now).sessionToken = s.sessionToken ∧
    (scheduleReexchange s now).upgradeTimer = s.upgradeTimer := by
  obtain ⟨h1, h2, h3, h4, h5, h6, h7⟩ := clearReexchangeTimer_fields s
  simp only [scheduleReexchange]
  split
  · exact ⟨h1, h2, h3, h4, h5, h6⟩
  · split
    · exact ⟨h1, h2, h3, h4, h5, h6⟩
    · exact ⟨h1, h2, h3, h4, h5, h6⟩

lemma scheduleUpgradeAttempt_fields (s : ZyloState) :
    (scheduleUpgradeAttempt s).config = s.config ∧
    (scheduleUpgradeAttempt s).currentTokenType = s.currentTokenType ∧
    (scheduleUpgradeAttempt s).tokenExpiry = s.tokenExpiry ∧
    (scheduleUpgradeAttempt s).storage = s.storage ∧
    (scheduleUpgradeAttempt s).sessionToken = s.sessionToken ∧
    (scheduleUpgradeAttempt s).reexchangeTimer = s.reexchangeTimer := by
  obtain ⟨h1, h2, h3, h4, h5, h6, h7⟩ := clearUpgradeTimer_fields s
  exact ⟨h1, h2, h3, h4, h5, h6⟩

lemma scheduleUpgradeAttempt_arms (s : ZyloState) :
    ∃ i, (scheduleUpgradeAttempt s).upgradeTimer = some i ∧
      (⟨i, TimerKind.UPGRADE, 5 * 60 * 1000⟩ : Timer) ∈ (scheduleUpgradeAttempt s).pending := by
  refine ⟨(clearUpgradeTimer s).nextTimerId, rfl, ?_⟩
  simp [scheduleUpgradeAttempt]

lemma boot_no_restore (s : ZyloState) (now : Int) (r : ExchangeResult)
    (h : hasValidStoredToken s now = false) : boot s now r = bootExchange s now r := by
  unfold hasValidStoredToken at h
  unfold boot
  rcases hl : loadStoredToken s with _ | st
  · rfl
  · rw [hl] at h
    have h' : (!isTokenExpired s (some st.expiry) now) = false := h
    show (if (!isTokenExpired s (some st.expiry) now) = true
          then scheduleReexchange { setToken s st.token none now with
              currentTokenType := st.type, tokenExpiry := some st.expiry } now
          else bootExchange s now r) = bootExchange s now r
    rw [h']
    simp

/-- C1: when no valid stored token is restorable and the scoped-anonymous
exchange fails, `boot` (a total function of the embedding: the failure is
recovered inside, it never raises) sets the tier to FALLBACK_ANON, binds the
static fallback credential into the session, clears all three storage slots,
leaves no expiry, and arms the upgrade-retry timer. -/
theorem boot_exchange_failure_recovers (s : ZyloState) (now : Int)
    (h : hasValidStoredToken s now = false) :
    (boot s now ExchangeResult.err).currentTokenType = TokenType.FALLBACK_ANON ∧
    (boot s now ExchangeResult.err).sessionToken = some s.config.supabaseAnonKey ∧
    (boot s now ExchangeResult.err).storage = ⟨none, none, none⟩ ∧
    (boot s now ExchangeResult.err).tokenExpiry = none ∧
    ∃ i, (boot s now ExchangeResult.err).upgradeTimer = some i ∧
      (⟨i, TimerKind.UPGRADE, 5 * 60 * 1000⟩ : Timer) ∈ (boot s now ExchangeResult.err).pending := by
  rw [boot_no_restore s now _ h]
  show (fallbackDemote s now).currentTokenType = TokenType.FALLBACK_ANON ∧ _
  unfold fallbackDemote
  obtain ⟨g1, g2, g3, g4, g5, g6⟩ :=
    scheduleUpgradeAttempt_fields
      { setToken s s.config.supabaseAnonKey none now with currentTokenType := TokenType.FALLBACK_ANON }
  obtain ⟨i, hi, him⟩ :=
    scheduleUpgradeAttempt_arms
      { setToken s s.config.supabaseAnonKey none now with currentTokenType := TokenType.FALLBACK_ANON }
  exact ⟨g2, g5, g4, g3, i, hi, him⟩

/-- C1 witness: a fresh instance with empty storage satisfies the hypothesis,
and the conclusion holds there. -/
theorem boot_exchange_failure_recovers_witness :
    hasValidStoredToken (initState cfg0) 0 = false ∧
    ((boot (initState cfg0) 0 ExchangeResult.err).currentTokenType = TokenType.FALLBACK_ANON ∧
     (boot (initState cfg0) 0 ExchangeResult.err).sessionToken = some (initState cfg0).config.supabaseAnonKey ∧
     (boot (initState cfg0) 0 ExchangeResult.err).storage = ⟨none, none, none⟩ ∧
     (boot (initState cfg0) 0 ExchangeResult.err).tokenExpiry = none ∧
     ∃ i, (boot (initState cfg0) 0 ExchangeResult.err).upgradeTimer = some i ∧
       (⟨i, TimerKind.UPGRADE, 5 * 60 * 1000⟩ : Timer) ∈ (boot (initState cfg0) 0 ExchangeResult.err).pending) :=
  ⟨rfl, boot_exchange_failure_recovers (initState cfg0) 0 rfl⟩

/-- C5: `login` propagates an error precisely when primary authentication
against the identity provider fails to yield a bearer token; when
authentication succeeds but the user-scoped exchange fails, `login` returns
normally with the user's session bound and every other field — in particular
tier and expiry — unchanged from its pre-login value. -/
theorem login_throws_iff_auth_fails (s : ZyloState) (now : Int)
    (auth : Option String) (exch : ExchangeResult) :
    (login s now auth exch = none ↔ auth = none) ∧
    (∀ u, auth = some u → exch = ExchangeResult.err →
      login s now auth exch = some { s with sessionToken := some u }) := by
  constructor
  · rcases auth with _ | u
    · simp [login]
    · rcases exch with ⟨tok, e⟩ | _ <;> simp [login]
  · intro u hu he
    subst hu; subst he
    rfl

/-- C5 witness: concrete instantiation with successful authentication and a
failed exchange. -/
theorem login_throws_iff_auth_fails_witness :
    login (initState cfg0) 0 (some "user-tok") ExchangeResult.err
      = some { initState cfg0 with sessionToken := some "user-tok" } :=
  (login_throws_iff_auth_fails (initState cfg0) 0 (some "user-tok") ExchangeResult.err).2
    "user-tok" rfl rfl

/-- C9: for any state holding an expiry (the JS-truthy case), arming renewal
installs exactly one new renewal timer whose delay is
`max 0 (expiry - 120*1000 - now)` milliseconds: it fires exactly two minutes
before the expiry timestamp, clamped to fire immediately when that instant is
already past. -/
theorem renewal_fires_120s_before_expiry (s : ZyloState) (now e : Int)
    (he : s.tokenExpiry = some e) (h0 : e ≠ 0) :
    ∃ i, (scheduleReexchange s now).reexchangeTimer = some i ∧
      (⟨i, TimerKind.REEXCHANGE, max 0 (e - 120 * 1000 - now)⟩ : Timer)
        ∈ (scheduleReexchange s now).pending := by
  have h3 : (clearReexchangeTimer s).tokenExpiry = some e := by
    rw [(clearReexchangeTimer_fields s).2.2.1, he]
  simp only [scheduleReexchange, h3, if_neg h0]
  refine ⟨(clearReexchangeTimer s).nextTimerId, rfl, ?_⟩
  have harith : e - 2 * 60 * 1000 - now = e - 120 * 1000 - now := by norm_num
  simp [harith]

/-- C9 witness: with `expires_in = 600` seconds granted at time 0 (so expiry
600000 ms), the renewal timer is armed with delay 480000 ms = expiry − 120 s. -/
theorem renewal_fires_120s_before_expiry_witness :
    ({ initState cfg0 with tokenExpiry := some 600000 } : ZyloState).tokenExpiry = some 600000 ∧
    (600000 : Int) ≠ 0 ∧
    ∃ i, (scheduleReexchange { initState cfg0 with tokenExpiry := some 600000 } 0).reexchangeTimer = some i ∧
      (⟨i, TimerKind.REEXCHANGE, 480000⟩ : Timer)
        ∈ (scheduleReexchange { initState cfg0 with tokenExpiry := some 600000 } 0).pending := by
  refine ⟨rfl, by decide, ?_⟩
  have h := renewal_fires_120s_before_expiry
    { initState cfg0 with tokenExpiry := some 600000 } 0 600000 rfl (by decide)
  simpa using h

/-- C10: when `boot` restores a stored, non-expired record, binding it with a
null expires-in deletes all three storage slots; the restored token is the
one bound into the session, and any subsequent `boot` finds no stored record
and must take the network-exchange branch. -/
theorem boot_restore_clears_storage (s : ZyloState) (now : Int) (r : ExchangeResult)
    (h : hasValidStoredToken s now = true) :
    (boot s now r).storage = ⟨none, none, none⟩ ∧
    (∃ st, loadStoredToken s = some st ∧ (boot s now r).sessionToken = some st.token) ∧
    ∀ now' r', boot (boot s now r) now' r' = bootExchange (boot s now r) now' r' := by
  unfold hasValidStoredToken at h
  rcases hl : loadStoredToken s with _ | st
  · rw [hl] at h; cases h
  · rw [hl] at h
    have h' : (!isTokenExpired s (some st.expiry) now) = true := h
    have hboot : boot s now r =
        scheduleReexchange
          { setToken s st.token none now with
              currentTokenType := st.type, tokenExpiry := some st.expiry } now := by
      unfold boot
      simp only [hl]
      rw [if_pos h']
    have hst : (boot s now r).storage = ⟨none, none, none⟩ := by
      rw [hboot, (scheduleReexchange_fields _ now).2.2.2.1]
      rfl
    refine ⟨hst, ⟨st, rfl, ?_⟩, ?_⟩
    · rw [hboot, (scheduleReexchange_fields _ now).2.2.2.2.1]
      rfl
    · intro now' r'
      have hload : loadStoredToken (boot s now r) = none := by
        unfold loadStoredToken
        rw [hst]
      have hv : hasValidStoredToken (boot s now r) now' = false := by
        unfold hasValidStoredToken
        rw [hload]
      exact boot_no_restore _ now' r' hv

/-- C10 witness: a state whose slots hold a complete far-future record takes
the restore path and afterwards holds an empty record. -/
theorem boot_restore_clears_storage_witness :
    hasValidStoredToken storedState 0 = true ∧
    ((boot storedState 0 ExchangeResult.err).storage = ⟨none, none, none⟩ ∧
     (∃ st, loadStoredToken storedState = some st ∧
        (boot storedState 0 ExchangeResult.err).sessionToken = some st.token) ∧
     ∀ now' r', boot (boot storedState 0 ExchangeResult.err) now' r'
        = bootExchange (boot storedState 0 ExchangeResult.err) now' r') :=
  ⟨by decide, boot_restore_clears_storage storedState 0 ExchangeResult.err (by decide)⟩

/-- C2 (refuted by the code): with no intervening state change, a first
`boot` whose exchange succeeds yields tier SCOPED_ANON, yet the immediately
following `boot` yields FALLBACK_ANON — the stored record carries the stale
pre-exchange tier tag, which the second call restores verbatim without any
network exchange (the restored session token is the first call's token, not
the second oracle's). -/
theorem boot_twice_yields_different_tier :
    (boot (initState cfg0) 0 (ExchangeResult.ok "anon-tok" 600)).currentTokenType
      = TokenType.SCOPED_ANON ∧
    (boot (boot (initState cfg0) 0 (ExchangeResult.ok "anon-tok" 600)) 1000
        (ExchangeResult.ok "other-tok" 999)).currentTokenType = TokenType.FALLBACK_ANON ∧
    (boot (boot (initState cfg0) 0 (ExchangeResult.ok "anon-tok" 600)) 1000
        (ExchangeResult.ok "other-tok" 999)).sessionToken = some "anon-tok" := by
  refine ⟨rfl, rfl, rfl⟩

/-- C3 (refuted by the code): after the reachable two-boot trace (successful
exchange, then restore of the stale-tagged record), the tier is FALLBACK_ANON
while the manager still holds the expiry timestamp 600000 — a FallbackAnon
state with a non-none expiry. -/
theorem fallback_tier_with_expiry_reachable :
    (boot (boot (initState cfg0) 0 (ExchangeResult.ok "anon-tok" 600)) 1000
        ExchangeResult.err).currentTokenType = TokenType.FALLBACK_ANON ∧
    (boot (boot (initState cfg0) 0 (ExchangeResult.ok "anon-tok" 600)) 1000
        ExchangeResult.err).tokenExpiry = some 600000 := by
  refine ⟨rfl, rfl⟩

/-- C4 (refuted by the code): a successful boot exchange leaves the active
tier SCOPED_ANON but persists the tier tag FALLBACK_ANON — the slot records
the pre-operation tier because `setToken` runs before the tier assignment. -/
theorem boot_persists_stale_tier_tag :
    (boot (initState cfg0) 0 (ExchangeResult.ok "anon-tok" 600)).currentTokenType
      = TokenType.SCOPED_ANON ∧
    (boot (initState cfg0) 0 (ExchangeResult.ok "anon-tok" 600)).storage.type
      = some TokenType.FALLBACK_ANON := by
  refine ⟨rfl, rfl⟩

/-- C6 (refuted by the code): a primary signup response of 400 with the
server-provided message "User already registered" is classified as
fall-through, not fatal — the inner catch only re-throws messages containing
the substring "Signup failed" — so `signUp` runs the fallback Supabase path
and completes normally instead of surfacing the server's message. -/
theorem signup_server_error_swallowed :
    classifyPrimarySignup (HttpOutcome.httpStatus 400 (some "User already registered"))
      = PrimaryClass.fallthroughSupabase ∧
    ∃ s', signUp (initState cfg0) 0
        (HttpOutcome.httpStatus 400 (some "User already registered"))
        (SignUpFallback.okSession "fallback-tok" (some 600)) none "auth-err"
        ExchangeResult.err = Except.ok s' ∧
      s'.currentTokenType = TokenType.USER_SCOPED := by
  exact ⟨rfl, _, rfl, rfl⟩

/-- C7 (refuted by the code): an upgrade-retry timer armed while degraded
survives an intervening successful login (nothing cancels it), and its
callback applies its result without checking the tier, overwriting the
USER_SCOPED tier with SCOPED_ANON when it fires. -/
theorem upgrade_callback_clobbers_user_scoped :
    ∃ s2, login (boot (initState cfg0) 0 ExchangeResult.err) 10 (some "user-tok")
        (ExchangeResult.ok "user-scoped-tok" 600) = some s2 ∧
      s2.currentTokenType = TokenType.USER_SCOPED ∧
      (⟨0, TimerKind.UPGRADE, 5 * 60 * 1000⟩ : Timer) ∈ s2.pending ∧
      (upgradeCallback (fireTimerEntry s2 0) 20 (ExchangeResult.ok "anon-tok2" 600)).currentTokenType
        = TokenType.SCOPED_ANON := by
  refine ⟨_, rfl, rfl, ?_, rfl⟩
  decide

lemma timerInv_congr {s s' : ZyloState} (h : TimerInv s) (hp : s'.pending = s.pending)
    (hr : s'.reexchangeTimer = s.reexchangeTimer) (hu : s'.upgradeTimer = s.upgradeTimer)
    (hn : s'.nextTimerId = s.nextTimerId) : TimerInv s' := by
  refine ⟨?_, ?_, ?_, ?_⟩
  · intro t ht hk
    rw [hr]
    exact h.reexMem t (hp ▸ ht) hk
  · intro t ht hk
    rw [hu]
    exact h.upgMem t (hp ▸ ht) hk
  · intro t ht
    rw [hn]
    exact h.fresh t (hp ▸ ht)
  · rw [hp]
    exact h.nodup

lemma timerInv_filter (s : ZyloState) (p : Timer → Bool) (h : TimerInv s) :
    TimerInv { s with pending := s.pending.filter p } := by
  refine ⟨?_, ?_, ?_, ?_⟩
  · intro t ht hk
    exact h.reexMem t (List.mem_of_mem_filter ht) hk
  · intro t ht hk
    exact h.upgMem t (List.mem_of_mem_filter ht) hk
  · intro t ht
    exact h.fresh t (List.mem_of_mem_filter ht)
  · exact h.nodup.sublist ((List.filter_sublist _).map _)

lemma timerInv_fireTimerEntry {s : ZyloState} (i : Nat) (h : TimerInv s) :
    TimerInv (fireTimerEntry s i) :=
  timerInv_filter s _ h

lemma timerInv_clearReexchangeTimer {s : ZyloState} (h : TimerInv s) :
    TimerInv (clearReexchangeTimer s) := by
  unfold clearReexchangeTimer
  split
  · next i hi =>
      refine ⟨?_, ?_, ?_, ?_⟩
      · intro t ht hk
        exfalso
        have hmem := List.mem_of_mem_filter ht
        have heq2 := h.reexMem t hmem hk
        rw [hi] at heq2
        injection heq2 with h3
        have hne := (List.mem_filter.mp ht).2
        rw [← h3] at hne
        simp at hne
      · intro t ht hk
        exact h.upgMem t (List.mem_of_mem_filter ht) hk
      · intro t ht
        exact h.fresh t (List.mem_of_mem_filter ht)
      · exact h.nodup.sublist ((List.filter_sublist _).map _)
  · exact h

lemma timerInv_clearUpgradeTimer {s : ZyloState} (h : TimerInv s) :
    TimerInv (clearUpgradeTimer s) := by
  unfold clearUpgradeTimer
  split
  · next i hi =>
      refine ⟨?_, ?_, ?_, ?_⟩
      · intro t ht hk
        exact h.reexMem t (List.mem_of_mem_filter ht) hk
      · intro t ht hk
        exfalso
        have hmem := List.mem_of_mem_filter ht
        have heq2 := h.upgMem t hmem hk
        rw [hi] at heq2
        injection heq2 with h3
        have hne := (List.mem_filter.mp ht).2
        rw [← h3] at hne
        simp at hne
      · intro t ht
        exact h.fresh t (List.mem_of_mem_filter ht)
      · exact h.nodup.sublist ((List.filter_sublist _).map _)
  · exact h

lemma timerInv_arm_reex (s : ZyloState) (d : Int) (h : TimerInv s)
    (hf : s.reexchangeTimer = none) :
    TimerInv { s with
        pending := s.pending ++ [⟨s.nextTimerId, TimerKind.REEXCHANGE, d⟩],
        reexchangeTimer := some s.nextTimerId, nextTimerId := s.nextTimerId + 1 } := by
  refine ⟨?_, ?_, ?_, ?_⟩
  · intro t ht hk
    rcases List.mem_append.mp ht with h1 | h2
    · exact absurd (h.reexMem t h1 hk) (by rw [hf]; simp)
    · have ht2 : t = ⟨s.nextTimerId, TimerKind.REEXCHANGE, d⟩ := by simpa using h2
      rw [ht2]
  · intro t ht hk
    rcases List.mem_append.mp ht with h1 | h2
    · exact h.upgMem t h1 hk
    · have ht2 : t = ⟨s.nextTimerId, TimerKind.REEXCHANGE, d⟩ := by simpa using h2
      rw [ht2] at hk
      exact TimerKind.noConfusion hk
  · intro t ht
    rcases List.mem_append.mp ht with h1 | h2
    · exact Nat.lt_succ_of_lt (h.fresh t h1)
    · have ht2 : t = ⟨s.nextTimerId, TimerKind.REEXCHANGE, d⟩ := by simpa using h2
      rw [ht2]
      exact Nat.lt_succ_self _
  · rw [List.map_append, List.nodup_append]
    refine ⟨h.nodup, by simp, ?_⟩
    intro a ha hb
    have hb2 : a = s.nextTimerId := by simpa using hb
    rcases List.mem_map.mp ha with ⟨t, htm, rfl⟩
    have := h.fresh t htm
    omega

lemma timerInv_arm_upg (s : ZyloState) (d : Int) (h : TimerInv s)
    (hf : s.upgradeTimer = none) :
    TimerInv { s with
        pending := s.pending ++ [⟨s.nextTimerId, TimerKind.UPGRADE, d⟩],
        upgradeTimer := some s.nextTimerId, nextTimerId := s.nextTimerId + 1 } := by
  refine ⟨?_, ?_, ?_, ?_⟩
  · intro t ht hk
    rcases List.mem_append.mp ht with h1 | h2
    · exact h.reexMem t h1 hk
    · have ht2 : t = ⟨s.nextTimerId, TimerKind.UPGRADE, d⟩ := by simpa using h2
      rw [ht2] at hk
      exact TimerKind.noConfusion hk
  · intro t ht hk
    rcases List.mem_append.mp ht with h1 | h2
    · exact absurd (h.upgMem t h1 hk) (by rw [hf]; simp)
    · have ht2 : t = ⟨s.nextTimerId, TimerKind.UPGRADE, d⟩ := by simpa using h2
      rw [ht2]
  · intro t ht
    rcases List.mem_append.mp ht with h1 | h2
    · exact Nat.lt_succ_of_lt (h.fresh t h1)
    · have ht2 : t = ⟨s.nextTimerId, TimerKind.UPGRADE, d⟩ := by simpa using h2
      rw [ht2]
      exact Nat.lt_succ_self _
  · rw [List.map_append, List.nodup_append]
    refine ⟨h.nodup, by simp, ?_⟩
    intro a ha hb
    have hb2 : a = s.nextTimerId := by simpa using hb
    rcases List.mem_map.mp ha with ⟨t, htm, rfl⟩
    have := h.fresh t htm
    omega

lemma timerInv_scheduleReexchange {s : ZyloState} {now : Int} (h : TimerInv s) :
    TimerInv (scheduleReexchange s now) := by
  have h1 := timerInv_clearReexchangeTimer h
  have hf := clearReexchangeTimer_none s
  simp only [scheduleReexchange]
  split
  · exact h1
  · split
    · exact h1
    · exact timerInv_arm_reex _ _ h1 hf

lemma timerInv_scheduleUpgradeAttempt {s : ZyloState} (h : TimerInv s) :
    TimerInv (scheduleUpgradeAttempt s) := by
  have h1 := timerInv_clearUpgradeTimer h
  have hf := clearUpgradeTimer_none s
  simp only [scheduleUpgradeAttempt]
  exact timerInv_arm_upg _ _ h1 hf

lemma timerInv_setToken {s : ZyloState} (tok : String) (e : Option Int) (now : Int)
    (h : TimerInv s) : TimerInv (setToken s tok e now) := by
  cases e with
  | none => exact timerInv_congr h rfl rfl rfl rfl
  | some v => exact timerInv_congr h rfl rfl rfl rfl

lemma timerInv_fallbackDemote {s : ZyloState} {now : Int} (h : TimerInv s) :
    TimerInv (fallbackDemote s now) :=
  timerInv_scheduleUpgradeAttempt
    (timerInv_congr (timerInv_setToken _ _ _ h) rfl rfl rfl rfl)

lemma timerInv_bootExchange {s : ZyloState} {now : Int} {r : ExchangeResult}
    (h : TimerInv s) : TimerInv (bootExchange s now r) := by
  cases r with
  | ok tok e =>
      exact timerInv_scheduleReexchange
        (timerInv_congr (timerInv_setToken _ _ _ h) rfl rfl rfl rfl)
  | err => exact timerInv_fallbackDemote h

lemma timerInv_boot {s : ZyloState} {now : Int} {r : ExchangeResult}
    (h : TimerInv s) : TimerInv (boot s now r) := by
  unfold boot
  split
  · split
    · exact timerInv_scheduleReexchange
        (timerInv_congr (timerInv_setToken _ _ _ h) rfl rfl rfl rfl)
    · exact timerInv_bootExchange h
  · exact timerInv_bootExchange h

lemma timerInv_login {s s' : ZyloState} {now : Int} {auth : Option String}
    {exch : ExchangeResult} (h : TimerInv s)
    (heq : login s now auth exch = some s') : TimerInv s' := by
  cases auth with
  | none => exact Option.noConfusion heq
  | some u =>
      cases exch with
      | ok tok e =>
          injection heq with h2
          rw [← h2]
          exact timerInv_scheduleReexchange
            (timerInv_congr
              (timerInv_setToken tok (some e) now
                (@timerInv_congr s { s with sessionToken := some u } h rfl rfl rfl rfl))
              rfl rfl rfl rfl)
      | err =>
          injection heq with h2
          rw [← h2]
          exact timerInv_congr h rfl rfl rfl rfl

lemma timerInv_loginOrError {s s' : ZyloState} {now : Int} {auth : Option String}
    {msg : String} {exch : ExchangeResult} (h : TimerInv s)
    (heq : loginOrError s now auth msg exch = Except.ok s') : TimerInv s' := by
  unfold loginOrError at heq
  cases hlg : login s now auth exch with
  | none =>
      rw [hlg] at heq
      exact Except.noConfusion heq
  | some s2 =>
      rw [hlg] at heq
      injection heq with h2
      rw [← h2]
      exact timerInv_login h hlg

lemma timerInv_signUp {s s' : ZyloState} {now : Int} {primary : HttpOutcome}
    {fb : SignUpFallback} {auth : Option String} {msg : String} {exch : ExchangeResult}
    (h : TimerInv s)
    (heq : signUp s now primary fb auth msg exch = Except.ok s') : TimerInv s' := by
  unfold signUp at heq
  cases hcl : classifyPrimarySignup primary with
  | proceedLogin =>
      rw [hcl] at heq
      exact timerInv_loginOrError h heq
  | fatal m =>
      rw [hcl] at heq
      exact Except.noConfusion heq
  | fallthroughSupabase =>
      rw [hcl] at heq
      cases fb with
      | err m => exact Except.noConfusion heq
      | okNoUser => exact Except.noConfusion heq
      | okNoSession => exact timerInv_loginOrError h heq
      | okSession tok expIn =>
          injection heq with h2
          rw [← h2]
          exact timerInv_scheduleReexchange
            (timerInv_congr (timerInv_setToken _ _ _ h) rfl rfl rfl rfl)

lemma timerInv_logout {s : ZyloState} {now : Int} {r : ExchangeResult}
    (h : TimerInv s) : TimerInv (logout s now r) :=
  timerInv_boot
    (timerInv_clearUpgradeTimer
      (timerInv_clearReexchangeTimer (timerInv_congr h rfl rfl rfl rfl)))

lemma timerInv_cleanup {s : ZyloState} (h : TimerInv s) : TimerInv (cleanup s) :=
  timerInv_clearUpgradeTimer (timerInv_clearReexchangeTimer h)

lemma timerInv_reexchangeCallback {s : ZyloState} {now : Int} {us : Option String}
    {te ae br : ExchangeResult} (h : TimerInv s) :
    TimerInv (reexchangeCallback s now us te ae br) := by
  unfold reexchangeCallback
  split
  · split
    · split
      · exact timerInv_scheduleReexchange (timerInv_setToken _ _ _ h)
      · exact timerInv_fallbackDemote h
    · exact timerInv_scheduleReexchange (timerInv_boot h)
  · split
    · exact timerInv_scheduleReexchange (timerInv_setToken _ _ _ h)
    · exact timerInv_fallbackDemote h
  · exact timerInv_scheduleReexchange h

lemma timerInv_upgradeCallback {s : ZyloState} {now : Int} {ae : ExchangeResult}
    (h : TimerInv s) : TimerInv (upgradeCallback s now ae) := by
  cases ae with
  | ok tok e =>
      exact timerInv_scheduleReexchange
        (timerInv_congr (timerInv_setToken _ _ _ h) rfl rfl rfl rfl)
  | err => exact timerInv_scheduleUpgradeAttempt h

lemma timerInv_step {s s' : ZyloState} (h : TimerInv s) (hs : Step s s') : TimerInv s' := by
  cases hs with
  | bootStep now r => exact timerInv_boot h
  | loginStep _ now auth exch heq => exact timerInv_login h heq
  | signUpStep _ now primary fb auth msg exch heq => exact timerInv_signUp h heq
  | logoutStep now r => exact timerInv_logout h
  | cleanupStep => exact timerInv_cleanup h
  | fireReexStep now t us te ae br hmem hk =>
      exact timerInv_reexchangeCallback (timerInv_fireTimerEntry _ h)
  | fireUpgradeStep now t ae hmem hk =>
      exact timerInv_upgradeCallback (timerInv_fireTimerEntry _ h)

lemma timerInv_reachable {cfg : ZyloConfig} {s : ZyloState}
    (h : Reachable cfg s) : TimerInv s := by
  induction h with
  | init => exact ⟨by simp [initState], by simp [initState], by simp [initState], by simp [initState]⟩
  | step hr hs ih => exact timerInv_step ih hs

lemma nodup_all_eq_length_le_one (l : List Timer) (i : Nat)
    (hall : ∀ t ∈ l, t.id = i) (hnd : (l.map (fun t => t.id)).Nodup) : l.length ≤ 1 := by
  cases l with
  | nil => simp
  | cons a tl =>
      cases tl with
      | nil => simp
      | cons b tl2 =>
          exfalso
          have ha : a.id = i := hall a (by simp)
          have hb : b.id = i := hall b (by simp)
          rw [List.map_cons, List.map_cons, List.nodup_cons] at hnd
          exact hnd.1 (by rw [ha, ← hb]; exact List.mem_cons_self _ _)

lemma timerInv_count_reex {s : ZyloState} (h : TimerInv s) :
    (s.pending.filter (fun t => t.kind == TimerKind.REEXCHANGE)).length ≤ 1 := by
  apply nodup_all_eq_length_le_one _ ((s.reexchangeTimer).getD 0)
  · intro t ht
    have hm := List.mem_filter.mp ht
    have hk : t.kind = TimerKind.REEXCHANGE := by simpa using hm.2
    have := h.reexMem t hm.1 hk
    rw [this]
    rfl
  · exact h.nodup.sublist ((List.filter_sublist _).map _)

lemma timerInv_count_upg {s : ZyloState} (h : TimerInv s) :
    (s.pending.filter (fun t => t.kind == TimerKind.UPGRADE)).length ≤ 1 := by
  apply nodup_all_eq_length_le_one _ ((s.upgradeTimer).getD 0)
  · intro t ht
    have hm := List.mem_filter.mp ht
    have hk : t.kind = TimerKind.UPGRADE := by simpa using hm.2
    have := h.upgMem t hm.1 hk
    rw [this]
    rfl
  · exact h.nodup.sublist ((List.filter_sublist _).map _)

/-- C8: in every reachable state of a manager instance, at most one renewal
timer and at most one upgrade timer are armed — arming first cancels the
previous handle of the same kind, so two timers of one purpose never coexist. -/
theorem at_most_one_timer_per_kind (cfg : ZyloConfig) (s : ZyloState)
    (h : Reachable cfg s) :
    (s.pending.filter (fun t => t.kind == TimerKind.REEXCHANGE)).length ≤ 1 ∧
    (s.pending.filter (fun t => t.kind == TimerKind.UPGRADE)).length ≤ 1 :=
  ⟨timerInv_count_reex (timerInv_reachable h), timerInv_count_upg (timerInv_reachable h)⟩

/-- C8 witness: the state reached by one failed boot from a fresh instance. -/
theorem at_most_one_timer_per_kind_witness :
    ((boot (initState cfg0) 0 ExchangeResult.err).pending.filter
        (fun t => t.kind == TimerKind.REEXCHANGE)).length ≤ 1 ∧
    ((boot (initState cfg0) 0 ExchangeResult.err).pending.filter
        (fun t => t.kind == TimerKind.UPGRADE)).length ≤ 1 :=
  at_most_one_timer_per_kind cfg0 _
    (Reachable.step Reachable.init (Step.bootStep _ 0 ExchangeResult.err))

end Zylo
